import Mathlib

/-!
Verification of the `napalm_ng` base network driver
(`src/napalm_ng/base.py`) against its specification.

The file has two layers:

* A shallow embedding of the Python code that is present in the source:
  the `BaseNetworkDriver` class whose every method raises
  `NotImplementedError`, and its scoped session manager
  (`__enter__` / `__exit__` / `__raise_clean_exception`) together with
  the semantics of the Python `with` statement (including Python 3
  implicit exception chaining via `__context__`).

* A model, built from the specification's words, of the parts of the
  system whose code is not in the source tree: the configuration
  lifecycle state machine that concrete drivers must satisfy, and the
  names exported by the napalm exceptions module.
-/

/-- A Python exception object: the name of its class, an opaque payload
standing for its arguments / identity, and the implicitly chained
context exception (`__context__`), set by the runtime when the exception
is raised while another exception is being handled. -/
inductive Exn where
  | mk (name : String) (payload : String) (ctx : Option Exn)

/-- The exception's class name (`type(e).__name__`). -/
def Exn.name : Exn → String
  | .mk n _ _ => n

/-- The exception's payload (arguments / identity). -/
def Exn.payload : Exn → String
  | .mk _ p _ => p

/-- The exception's chained context (`e.__context__`). -/
def Exn.ctx : Exn → Option Exn
  | .mk _ _ c => c

/-- Raising `e2` while `e1` is being handled: the Python 3 runtime sets
`e2.__context__ = e1` (implicit exception chaining). -/
def Exn.chain : Exn → Exn → Exn
  | .mk n p _, e1 => .mk n p (some e1)

/-- Modelled from the spec: the attribute names of the napalm exceptions
module (`dir(exceptions)`), whose source file is not in the tree. The
spec's section 7 lists the declared error kinds, and the docstrings of
`base.py` name `LoadConfigException`. The theorems below do not depend
on the exact contents of this list. -/
def napalmExceptionNames : List String :=
  ["LoadConfigException", "ConnectionError", "NotConnected",
   "LoadConfigError", "NoCandidateConfiguration", "CommitError",
   "RollbackError", "NotImplementedByDriver", "UnexpectedError"]

/-- The names of the Python builtins (`__builtins__.keys()`). This is a
host-environment set, of which we list a representative subset; the
theorems below do not depend on its exact contents. -/
def builtinNames : List String :=
  ["BaseException", "Exception", "NotImplementedError", "ValueError",
   "TypeError", "KeyError", "IndexError", "AttributeError",
   "RuntimeError", "OSError", "IOError", "StopIteration",
   "KeyboardInterrupt", "SystemExit", "ZeroDivisionError",
   "NameError", "ImportError", "ArithmeticError"]

/-- `BaseNetworkDriver.__raise_clean_exception` (base.py lines 59-83):
if the exception's class name is neither an attribute of the napalm
exceptions module nor a builtin name, print a diagnostic epilog asking
that a bug be filed; in every case re-raise the original exception
object itself. The returned pair is (diagnostic printed?, exception
raised). -/
def raiseCleanException (e : Exn) : Bool × Exn :=
  if e.name ∉ napalmExceptionNames ∧ e.name ∉ builtinNames then
    (true, e)
  else
    (false, e)

/-- `BaseNetworkDriver.__enter__` (base.py lines 44-51): attempt
`self.open()`; on failure, classify and re-raise the original exception
through `__raise_clean_exception`. Returns (diagnostic printed?,
outcome). `openR` is the behaviour of the driver's `open()`. -/
def enterSession (openR : Except Exn Unit) : Bool × Except Exn Unit :=
  match openR with
  | .ok _ => (false, .ok ())
  | .error e => ((raiseCleanException e).fst, .error (raiseCleanException e).snd)

/-- The result of `BaseNetworkDriver.__exit__`. -/
structure ExitResult where
  closeCalls : Nat
  printed : Bool
  outcome : Except Exn Unit

/-- `BaseNetworkDriver.__exit__` (base.py lines 53-57): first invoke
`self.close()` unconditionally (hence `closeCalls = 1` in every branch);
then, if an exception is being propagated, classify and re-raise it
through `__raise_clean_exception`. If `close()` itself raises while an
exception `e1` is being handled, the runtime propagates the close
failure with `e1` attached as its `__context__`. `closeR` is the
behaviour of the driver's `close()`; `exc` is the exception raised by
the protected block, if any. -/
def exitSession (closeR : Except Exn Unit) (exc : Option Exn) : ExitResult :=
  match closeR with
  | .error e2 =>
      match exc with
      | some e1 => { closeCalls := 1, printed := false, outcome := .error (Exn.chain e2 e1) }
      | none => { closeCalls := 1, printed := false, outcome := .error e2 }
  | .ok _ =>
      match exc with
      | none => { closeCalls := 1, printed := false, outcome := .ok () }
      | some e1 =>
          { closeCalls := 1, printed := (raiseCleanException e1).fst,
            outcome := .error (raiseCleanException e1).snd }

/-- The observable result of one scoped session
(`with driver: body`). -/
structure RunResult (α : Type) where
  closeCalls : Nat
  bodyRan : Bool
  printed : Bool
  outcome : Except Exn α

/-- The Python `with` statement over a `BaseNetworkDriver`: run
`__enter__`; if it raises, the body never runs and `__exit__` is not
called. Otherwise run the body, then `__exit__` with the body's
exception (if any); an exception raised by `__exit__` replaces the
outcome, and when `__exit__` returns normally after a body exception the
runtime re-raises that exception. -/
def scopedSession (openR closeR : Except Exn Unit) (body : Except Exn α) :
    RunResult α :=
  match (enterSession openR).snd with
  | .error e =>
      { closeCalls := 0, bodyRan := false,
        printed := (enterSession openR).fst, outcome := .error e }
  | .ok _ =>
      match body with
      | .ok a =>
          let r := exitSession closeR none
          { closeCalls := r.closeCalls, bodyRan := true, printed := r.printed,
            outcome := match r.outcome with
                       | .error e => .error e
                       | .ok _ => .ok a }
      | .error e1 =>
          let r := exitSession closeR (some e1)
          { closeCalls := r.closeCalls, bodyRan := true, printed := r.printed,
            outcome := match r.outcome with
                       | .error e => .error e
                       | .ok _ => .error e1 }

/-- The system's error kinds: `NotImplementedError`, raised throughout
`base.py`, together with the declared error taxonomy of the spec's
section 7. -/
inductive Err where
  | notImplementedError
  | connectionError
  | notConnected
  | loadConfigError
  | noCandidateConfiguration
  | commitError
  | rollbackError
deriving DecidableEq, Repr

/-- Modelled from the spec: the lifecycle states of a device session
(spec section 4.2). `CandidatePending` is represented as the
`connected` state with a pending candidate in the session's data
(spec section 3), and `Committed` is an alias of `connected` with
non-empty rollback history. -/
inductive LifecycleState where
  | disconnected
  | connected
  | closed
deriving DecidableEq, Repr

/-- Modelled from the spec: a device session (spec section 3): target
address, credentials, driver options, current lifecycle state, running
configuration, the at-most-one pending candidate configuration, and the
rollback history of previous running configurations. -/
structure Session where
  hostname : String
  username : String
  password : String
  optional_args : List (String × String)
  state : LifecycleState
  running : String
  candidate : Option String
  history : List String
deriving DecidableEq, Repr

/-- `BaseNetworkDriver.__init__` (base.py lines 28-42): raises
`NotImplementedError` unconditionally, before any session state is
constructed — hence the error result carries no `Session`. -/
def BaseNetworkDriver.init (hostname username password : String)
    (kwargs : List (String × String)) : Except Err Session :=
  .error .notImplementedError

/-- `BaseNetworkDriver.open` (base.py lines 85-92). -/
def BaseNetworkDriver.open' : Except Err Unit :=
  .error .notImplementedError

/-- `BaseNetworkDriver.close` (base.py lines 94-101). -/
def BaseNetworkDriver.close : Except Err Unit :=
  .error .notImplementedError

/-- `BaseNetworkDriver.is_alive` (base.py lines 103-111). -/
def BaseNetworkDriver.is_alive : Except Err Bool :=
  .error .notImplementedError

/-- `BaseNetworkDriver.load_replace_candidate` (base.py lines 113-130). -/
def BaseNetworkDriver.load_replace_candidate (filename config : Option String) :
    Except Err Unit :=
  .error .notImplementedError

/-- `BaseNetworkDriver.load_merge_candidate` (base.py lines 132-150). -/
def BaseNetworkDriver.load_merge_candidate (filename config : Option String) :
    Except Err Unit :=
  .error .notImplementedError

/-- `BaseNetworkDriver.compare_config` (base.py lines 152-161). -/
def BaseNetworkDriver.compare_config : Except Err String :=
  .error .notImplementedError

/-- `BaseNetworkDriver.commit_config` (base.py lines 163-171). -/
def BaseNetworkDriver.commit_config : Except Err Unit :=
  .error .notImplementedError

/-- `BaseNetworkDriver.discard_config` (base.py lines 173-181). -/
def BaseNetworkDriver.discard_config : Except Err Unit :=
  .error .notImplementedError

/-- `BaseNetworkDriver.rollback` (base.py lines 183-191). -/
def BaseNetworkDriver.rollback : Except Err Unit :=
  .error .notImplementedError

/-- `BaseNetworkDriver.cli` (base.py lines 193-217). -/
def BaseNetworkDriver.cli (commands : List String) :
    Except Err (List (String × String)) :=
  .error .notImplementedError

/-- Modelled from the spec: the guard that every configuration or query
operation requires the session to be in the `Connected` state; a
session that is not connected fails with `NotConnected`
(spec sections 3 and 8). -/
def Session.requireConnected (s : Session) : Except Err Unit :=
  if s.state = .connected then .ok () else .error .notConnected

/-- Modelled from the spec: a concrete driver's `open()` — the
implementation is not in the source tree. Transitions
Disconnected to Connected; idempotent if already open; fails with a
connection error when the transport fails (`devOk = false` models a
network or authentication failure, spec section 4.1). -/
def Session.open' (devOk : Bool) (s : Session) : Except Err Session :=
  if s.state = .connected then .ok s
  else if devOk then .ok { s with state := .connected }
  else .error .connectionError

/-- Modelled from the spec: a concrete driver's `close()` — the
implementation is not in the source tree. Tears down the session; a
no-op if already closed; never raises, in particular not on a session
that was never opened (spec section 4.1). -/
def Session.close (s : Session) : Except Err Session :=
  if s.state = .closed then .ok s
  else .ok { s with state := .closed }

/-- Modelled from the spec: a concrete driver's
`load_replace_candidate` with the configuration source already resolved
to its text (spec section 6: the core only requires a way to obtain the
configuration text). Stages the candidate, overwriting any pending one;
only callable when Connected (spec section 4.1). -/
def Session.load_replace_candidate (cfg : String) (s : Session) :
    Except Err Session :=
  match s.requireConnected with
  | .error err => .error err
  | .ok _ => .ok { s with candidate := some cfg }

/-- Modelled from the spec: a concrete driver's `load_merge_candidate`;
the staged candidate is the running configuration merged with the given
text (spec section 4.1). -/
def Session.load_merge_candidate (cfg : String) (s : Session) :
    Except Err Session :=
  match s.requireConnected with
  | .error err => .error err
  | .ok _ => .ok { s with candidate := some (s.running ++ "\n" ++ cfg) }

/-- Modelled from the spec: a concrete driver's `compare_config`.
Returns the diff between running and candidate without mutating either;
with no pending candidate the diff is empty (spec section 4.1). -/
def Session.compare_config (s : Session) : Except Err String :=
  match s.requireConnected with
  | .error err => .error err
  | .ok _ =>
      match s.candidate with
      | none => .ok ""
      | some c => .ok (if s.running = c then "" else c)

/-- Modelled from the spec: a concrete driver's `commit_config` — the
implementation is not in the source tree. With no pending candidate it
fails with `NoCandidateConfiguration` (spec section 3); otherwise it is
all-or-nothing: on success the candidate becomes the running
configuration, is cleared, and the rollback history is updated; on a
device failure (`devOk = false`) it fails with `CommitError`
(spec section 4.1). -/
def Session.commit_config (devOk : Bool) (s : Session) :
    Except Err Session :=
  match s.requireConnected with
  | .error err => .error err
  | .ok _ =>
      match s.candidate with
      | none => .error .noCandidateConfiguration
      | some c =>
          if devOk then
            .ok { s with running := c, candidate := none,
                         history := s.running :: s.history }
          else .error .commitError

/-- Modelled from the spec: a concrete driver's `discard_config`:
clears the pending candidate without activating it; fails with
`NoCandidateConfiguration` when nothing is staged (spec section 3). -/
def Session.discard_config (s : Session) : Except Err Session :=
  match s.requireConnected with
  | .error err => .error err
  | .ok _ =>
      match s.candidate with
      | none => .error .noCandidateConfiguration
      | some _ => .ok { s with candidate := none }

/-- Modelled from the spec: a concrete driver's `rollback`: restores
the running configuration to its state before the most recent commit;
fails with `RollbackError` when no prior commit exists
(spec section 4.1). -/
def Session.rollback (s : Session) : Except Err Session :=
  match s.requireConnected with
  | .error err => .error err
  | .ok _ =>
      match s.history with
      | [] => .error .rollbackError
      | prev :: rest => .ok { s with running := prev, history := rest }

/-- Modelled from the spec: a concrete driver's `cli`: executes each
command in order against the device (`exec` models the device's
response) and returns outputs keyed by the literal command text
(spec section 4.1). -/
def Session.cli (exec : String → String) (cmds : List String)
    (s : Session) : Except Err (List (String × String)) :=
  match s.requireConnected with
  | .error err => .error err
  | .ok _ => .ok (cmds.map fun c => (c, exec c))

/-- The configuration and query operations of the driver contract
(everything except `open` and `close`). -/
inductive Op where
  | loadReplace (cfg : String)
  | loadMerge (cfg : String)
  | compare
  | commit (devOk : Bool)
  | discard
  | doRollback
  | runCli (cmds : List String)

/-- Dispatch one configuration or query operation on a session,
projecting query operations onto the (unchanged) session state. -/
def Session.applyOp (op : Op) (s : Session) : Except Err Session :=
  match op with
  | .loadReplace cfg => s.load_replace_candidate cfg
  | .loadMerge cfg => s.load_merge_candidate cfg
  | .compare => (s.compare_config).map fun _ => s
  | .commit devOk => s.commit_config devOk
  | .discard => s.discard_config
  | .doRollback => s.rollback
  | .runCli cmds => (s.cli (fun c => c) cmds).map fun _ => s

/-- The session state observed by the caller after an operation:
Python exceptions do not mutate the session, so on failure the session
is unchanged. -/
def runOutcome (r : Except Err Session) (s : Session) : Session :=
  match r with
  | .ok s' => s'
  | .error _ => s

/-- A concrete exception raised by a protected unit of work. -/
def eBoom : Exn := Exn.mk "BoomError" "boom-payload" none

/-- A concrete exception raised by a failing `close()`. -/
def eCloseFail : Exn := Exn.mk "CloseFailError" "close-payload" none

/-- A concrete connected session with a pending candidate. -/
def sPending : Session :=
  { hostname := "r1", username := "admin", password := "pw",
    optional_args := [("timeout", "60")], state := .connected,
    running := "hostname r1", candidate := some "hostname r1-new",
    history := [] }

/-- A concrete session in the `Disconnected` state. -/
def sDisc : Session :=
  { hostname := "r2", username := "admin", password := "pw",
    optional_args := [], state := .disconnected,
    running := "", candidate := none, history := [] }

/-- A concrete session in the `Closed` state. -/
def sClosed : Session :=
  { hostname := "r3", username := "admin", password := "pw",
    optional_args := [], state := .closed,
    running := "hostname r3", candidate := none, history := [] }

lemma raiseCleanException_snd (e : Exn) : (raiseCleanException e).snd = e := by
  unfold raiseCleanException
  split <;> rfl

lemma raiseCleanException_fst (e : Exn) :
    (raiseCleanException e).fst = true ↔
      e.name ∉ napalmExceptionNames ∧ e.name ∉ builtinNames := by
  unfold raiseCleanException
  split <;> simp_all

lemma requireConnected_eq_ok (s : Session)
    (hs : s.state = LifecycleState.connected) :
    s.requireConnected = Except.ok () := by
  unfold Session.requireConnected
  rw [hs, if_pos rfl]

lemma requireConnected_of_disconnected (s : Session)
    (hs : s.state = LifecycleState.disconnected) :
    s.requireConnected = Except.error Err.notConnected := by
  unfold Session.requireConnected
  rw [hs]
  rfl

/-- C1: for every scoped session entered via a successful `open()`,
`close()` is invoked exactly once on exit, whether the protected work
returned normally or raised; and when the protected work raised and
`close()` ran to completion, the very same failure object, unwrapped and
unaltered, is what the caller observes after `close()` has run. -/
theorem claim_C1_scoped_exit_closes_once_and_reraises_original
    (closeR body : Except Exn Unit) :
    (scopedSession (Except.ok ()) closeR body).closeCalls = 1 ∧
    (∀ e : Exn, closeR = Except.ok () → body = Except.error e →
      (scopedSession (Except.ok ()) closeR body).outcome = Except.error e) := by
  constructor
  · cases body <;> cases closeR <;> rfl
  · rintro e rfl rfl
    show Except.error (raiseCleanException e).snd = Except.error e
    rw [raiseCleanException_snd]

theorem claim_C1_witness :
    (scopedSession (Except.ok ()) (Except.ok ())
      (Except.error eBoom : Except Exn Unit)).closeCalls = 1 ∧
    (scopedSession (Except.ok ()) (Except.ok ())
      (Except.error eBoom : Except Exn Unit)).outcome = Except.error eBoom :=
  ⟨(claim_C1_scoped_exit_closes_once_and_reraises_original (Except.ok ())
      (Except.error eBoom)).1,
   (claim_C1_scoped_exit_closes_once_and_reraises_original (Except.ok ())
      (Except.error eBoom)).2 eBoom rfl rfl⟩

/-- C2 counterexample: the protected work raises `eBoom` and `close()`
raises `eCloseFail`; the outcome observed by the caller is not the
original failure `eBoom` — the close failure is what propagates. -/
theorem claim_C2_counterexample :
    (scopedSession (Except.ok ()) (Except.error eCloseFail)
      (Except.error eBoom : Except Exn Unit)).outcome ≠ Except.error eBoom := by
  intro h
  have h0 : (scopedSession (Except.ok ()) (Except.error eCloseFail)
      (Except.error eBoom : Except Exn Unit)).outcome =
      Except.error (Exn.mk "CloseFailError" "close-payload" (some eBoom)) := rfl
  rw [h0] at h
  injection h with h1
  rw [show eBoom = Exn.mk "BoomError" "boom-payload" none from rfl] at h1
  injection h1 with hn _ _
  exact absurd hn (by decide)

/-- C2 (amended): when the protected work raises `e1` and `close()`
raises `e2`, the exception that propagates to the caller is the close
failure `e2`, carrying the original failure `e1` unaltered as its
implicitly chained context (`__context__`); both failures are thus
observable in the propagated chain, but the close failure — not the
original — is the directly raised exception. -/
theorem claim_C2_close_failure_propagates_with_original_chained
    (e1 e2 : Exn) :
    (scopedSession (Except.ok ()) (Except.error e2)
      (Except.error e1 : Except Exn Unit)).outcome
        = Except.error (Exn.chain e2 e1) ∧
    (Exn.chain e2 e1).name = e2.name ∧
    (Exn.chain e2 e1).payload = e2.payload ∧
    (Exn.chain e2 e1).ctx = some e1 := by
  cases e2
  exact ⟨rfl, rfl, rfl, rfl⟩

/-- C3: when `open()` fails on scope entry, the very same connection
failure propagates to the caller, the protected unit of work never
executes, and `close()` is not invoked (scope entry never completes). -/
theorem claim_C3_failed_open_propagates_and_skips_body
    (e : Exn) (closeR body : Except Exn Unit) :
    (scopedSession (Except.error e) closeR body).outcome = Except.error e ∧
    (scopedSession (Except.error e) closeR body).bodyRan = false ∧
    (scopedSession (Except.error e) closeR body).closeCalls = 0 := by
  refine ⟨?_, rfl, rfl⟩
  show Except.error (raiseCleanException e).snd = Except.error e
  rw [raiseCleanException_snd]

/-- C4: a failure propagated through the scoped session manager — on
the open-failure path or on the body-failure path — is surfaced with
the diagnostic hint printed exactly when its class name is recognized
neither among the napalm exceptions module's attribute names nor among
the builtins, and in either case the failure object itself propagates
unaltered and unwrapped. -/
theorem claim_C4_unrecognized_failures_get_diagnostic
    (e : Exn) (closeR body' : Except Exn Unit) :
    ((scopedSession (Except.error e) closeR body').printed = true ↔
        e.name ∉ napalmExceptionNames ∧ e.name ∉ builtinNames) ∧
    (scopedSession (Except.error e) closeR body').outcome = Except.error e ∧
    ((scopedSession (Except.ok ()) (Except.ok ())
        (Except.error e : Except Exn Unit)).printed = true ↔
        e.name ∉ napalmExceptionNames ∧ e.name ∉ builtinNames) ∧
    (scopedSession (Except.ok ()) (Except.ok ())
        (Except.error e : Except Exn Unit)).outcome = Except.error e := by
  refine ⟨?_, ?_, ?_, ?_⟩
  · show (raiseCleanException e).fst = true ↔ _
    exact raiseCleanException_fst e
  · show Except.error (raiseCleanException e).snd = Except.error e
    rw [raiseCleanException_snd]
  · show (raiseCleanException e).fst = true ↔ _
    exact raiseCleanException_fst e
  · show Except.error (raiseCleanException e).snd = Except.error e
    rw [raiseCleanException_snd]

/-- C10: the error classification of `__raise_clean_exception` depends
only on the failure's class name: two exceptions with equal class names
receive the identical diagnostic decision, and in both cases the
original exception object itself is re-raised. -/
theorem claim_C10_classification_depends_only_on_name
    (e1 e2 : Exn) (h : e1.name = e2.name) :
    (raiseCleanException e1).fst = (raiseCleanException e2).fst ∧
    (raiseCleanException e1).snd = e1 ∧
    (raiseCleanException e2).snd = e2 := by
  refine ⟨?_, raiseCleanException_snd e1, raiseCleanException_snd e2⟩
  unfold raiseCleanException
  rw [h]
  by_cases hc : e2.name ∉ napalmExceptionNames ∧ e2.name ∉ builtinNames
  · rw [if_pos hc, if_pos hc]
  · rw [if_neg hc, if_neg hc]

theorem claim_C10_witness :
    (raiseCleanException (Exn.mk "ValueError" "payload-a" none)).fst =
      (raiseCleanException (Exn.mk "ValueError" "payload-b" none)).fst ∧
    (raiseCleanException (Exn.mk "ValueError" "payload-a" none)).snd =
      Exn.mk "ValueError" "payload-a" none ∧
    (raiseCleanException (Exn.mk "ValueError" "payload-b" none)).snd =
      Exn.mk "ValueError" "payload-b" none :=
  claim_C10_classification_depends_only_on_name
    (Exn.mk "ValueError" "payload-a" none)
    (Exn.mk "ValueError" "payload-b" none) rfl

/-- C5: `commit_config()` is all-or-nothing for a session with a
pending candidate: on success the candidate becomes the running
configuration, is cleared, and the rollback history is updated; on
failure it signals `CommitError` while the observable session keeps its
running configuration byte-identical to the pre-commit state and the
candidate remains pending. -/
theorem claim_C5_commit_all_or_nothing
    (s : Session) (c : String) (devOk : Bool)
    (hs : s.state = LifecycleState.connected)
    (hc : s.candidate = some c) :
    (devOk = true →
      s.commit_config devOk =
        Except.ok { s with running := c, candidate := none,
                           history := s.running :: s.history }) ∧
    (devOk = false →
      s.commit_config devOk = Except.error Err.commitError ∧
      runOutcome (s.commit_config devOk) s = s ∧
      (runOutcome (s.commit_config devOk) s).running = s.running ∧
      (runOutcome (s.commit_config devOk) s).candidate = some c) := by
  refine ⟨fun hd => ?_, fun hd => ?_⟩ <;> subst hd <;>
    simp [Session.commit_config, requireConnected_eq_ok s hs, hc, runOutcome]

theorem claim_C5_witness :
    Session.commit_config false sPending = Except.error Err.commitError ∧
    runOutcome (Session.commit_config false sPending) sPending = sPending ∧
    (runOutcome (Session.commit_config false sPending) sPending).running =
      sPending.running ∧
    (runOutcome (Session.commit_config false sPending) sPending).candidate =
      some "hostname r1-new" :=
  (claim_C5_commit_all_or_nothing sPending "hostname r1-new" false rfl rfl).2 rfl

/-- C6: `close()` never raises — in particular not on a session that
was never opened — and calling it on an already-closed session is a
no-op. -/
theorem claim_C6_close_never_raises_and_is_idempotent (s : Session) :
    (∃ s', s.close = Except.ok s') ∧
    (s.state = LifecycleState.closed → s.close = Except.ok s) := by
  constructor
  · unfold Session.close
    split
    · exact ⟨s, rfl⟩
    · exact ⟨_, rfl⟩
  · intro h
    unfold Session.close
    rw [if_pos h]

theorem claim_C6_witness :
    (∃ s', Session.close sClosed = Except.ok s') ∧
    Session.close sClosed = Except.ok sClosed :=
  ⟨(claim_C6_close_never_raises_and_is_idempotent sClosed).1,
   (claim_C6_close_never_raises_and_is_idempotent sClosed).2 rfl⟩

/-- C7: every operation of the driver contract, invoked on the base
driver (i.e. not overridden by a concrete driver), signals the distinct
`NotImplementedError` — never a normal result and never any other
failure kind. -/
theorem claim_C7_base_driver_signals_not_implemented :
    BaseNetworkDriver.open' = Except.error Err.notImplementedError ∧
    BaseNetworkDriver.close = Except.error Err.notImplementedError ∧
    BaseNetworkDriver.is_alive = Except.error Err.notImplementedError ∧
    (∀ f c, BaseNetworkDriver.load_replace_candidate f c =
      Except.error Err.notImplementedError) ∧
    (∀ f c, BaseNetworkDriver.load_merge_candidate f c =
      Except.error Err.notImplementedError) ∧
    BaseNetworkDriver.compare_config = Except.error Err.notImplementedError ∧
    BaseNetworkDriver.commit_config = Except.error Err.notImplementedError ∧
    BaseNetworkDriver.discard_config = Except.error Err.notImplementedError ∧
    BaseNetworkDriver.rollback = Except.error Err.notImplementedError ∧
    (∀ cmds, BaseNetworkDriver.cli cmds =
      Except.error Err.notImplementedError) :=
  ⟨rfl, rfl, rfl, fun _ _ => rfl, fun _ _ => rfl, rfl, rfl, rfl, rfl,
   fun _ => rfl⟩

/-- C8: every configuration or query operation of the driver contract
fails with `NotConnected` on a session in the `Disconnected` state. -/
theorem claim_C8_operations_fail_when_disconnected
    (op : Op) (s : Session)
    (hs : s.state = LifecycleState.disconnected) :
    s.applyOp op = Except.error Err.notConnected := by
  have h1 := requireConnected_of_disconnected s hs
  cases op <;>
    simp [Session.applyOp, Session.load_replace_candidate,
      Session.load_merge_candidate, Session.compare_config,
      Session.commit_config, Session.discard_config, Session.rollback,
      Session.cli, h1, Except.map]

theorem claim_C8_witness :
    Session.applyOp (Op.loadReplace "hostname r9") sDisc =
      Except.error Err.notConnected :=
  claim_C8_operations_fail_when_disconnected (Op.loadReplace "hostname r9")
    sDisc rfl

/-- C9: constructing a `BaseNetworkDriver` directly raises
`NotImplementedError` for every choice of hostname, username, password
and keyword arguments, before any session state is created (the error
result carries no session). -/
theorem claim_C9_base_driver_cannot_be_instantiated
    (hostname username password : String)
    (kwargs : List (String × String)) :
    BaseNetworkDriver.init hostname username password kwargs =
      Except.error Err.notImplementedError := rfl
